import Mathlib

/-!
Verification development for the `restsession` HTTP client session wrapper.

The package layers parameter validation, a fixed three-stage response-hook
pipeline, redirect credential stripping, reauthentication bookkeeping and a
singleton variant on top of the `requests` transport.  This file gives a
shallow embedding of the relevant code paths:

* `RestSession`       — the facade in `restsession/session.py` (hook pipeline,
  `timeout` / `retry_status_code_list` setters, `reauth`, the verb helpers
  `request`/`get`/`post`/`put`/`patch`/`delete`/`head`/`options`, and
  `clear_response_hooks`).
* `NewRestSession`    — the facade in `restsession/newsession.py` (its
  `timeout` setter with `InvalidParameterError` wrapping, and its hook
  setters, including the nested-list rebuild in `redirect_header_hook`).
* `remove_custom_auth_header_on_redirect` — the redirect credential-stripping
  hook (`restsession/default_hooks.py`, lines 69–101).
* `validate_http_status_code`, `RetryStatusCodeListValidator` — the two
  status-code validators (`src/restsession/models.py` and
  `restsession/newmodels.py`).
* `set_base_url` — the base-URL validation/normalization chain of
  `src/restsession/models.py` (`AnyUrlString` + `base_url_ends_with_slash`).
* `Singleton_call` / `RestSessionSingleton_exit` — the singleton metaclass
  (`src/restsession/metaclass.py`) and the `__exit__` cache reset
  (`restsession/session_singleton.py`).

Python runtime values that the validators discriminate on are embedded as
`PyVal`; raised exceptions are embedded as the `SessionError` alternative of
an `Except` result.
-/

/-- Propositional equality on `Except` results is decidable whenever it is
on the error and value types; used to evaluate embedded setters on concrete
inputs. -/
instance {ε α : Type} [DecidableEq ε] [DecidableEq α] : DecidableEq (Except ε α)
  | .ok a, .ok b => decidable_of_iff (a = b) (by simp)
  | .error a, .error b => decidable_of_iff (a = b) (by simp)
  | .ok _, .error _ => isFalse (fun h => Except.noConfusion h)
  | .error _, .ok _ => isFalse (fun h => Except.noConfusion h)

namespace Restsession

/-- Embedding of the Python runtime values the parameter validators
discriminate on (int, float, str, bool, None).  The float payload is kept
abstract as an integer tag: no claim depends on non-integral float
arithmetic. -/
inductive PyVal where
  | vInt (n : Int)
  | vFloat (n : Int)
  | vStr (s : String)
  | vBool (b : Bool)
  | vNone
deriving DecidableEq, Repr

/-- Exceptions observable from the embedded code paths:
`validationError` is an unwrapped `pydantic.ValidationError`,
`invalidParameterError` is `restsession.exceptions.InvalidParameterError`,
and `requestHTTPError n` is the `requests.exceptions.HTTPError` raised by
`reauth()` with the message `Maximum reauthentication count reached (n)`. -/
inductive SessionError where
  | validationError
  | invalidParameterError
  | requestHTTPError (reauthCount : Nat)
deriving DecidableEq, Repr

/-- Identities of the response-hook callables.  `redirectHook keys` is the
closure returned by `remove_custom_auth_header_on_redirect(headers=keys)`,
`exceptionHook` is `default_request_exception_hook`, and `userHook i` stands
for the i-th user-supplied hook. -/
inductive HookFun where
  | redirectHook (keys : List String)
  | exceptionHook
  | userHook (id : Nat)
deriving DecidableEq, Repr

/-- Argument accepted by the hook setters: either a bare callable or a list
of callables (`if not isinstance(hook, list): hook = [hook]`). -/
inductive HookArg where
  | single (h : HookFun)
  | hookList (hs : List HookFun)
deriving DecidableEq, Repr

/-- The `if not isinstance(hook, list): hook = [hook]` normalization shared
by all three hook setters. -/
def HookArg.toList : HookArg → List HookFun
  | .single h => [h]
  | .hookList hs => hs

/-- An element of the transport's `hooks["response"]` list in
`newsession.py`.  Its `redirect_header_hook` setter stores a Python list of
three lists there, so an entry is either a callable or a nested list of
callables. -/
inductive HookEntry where
  | fn (h : HookFun)
  | nested (hs : List HookFun)
deriving DecidableEq, Repr

/-- Abstraction of the configured `auth` object: all that `reauth()`
inspects is whether `hasattr(self.auth, "reauth")` holds.  Tuples and basic
auth objects have no `reauth` attribute. -/
structure AuthObj where
  hasReauthAttr : Bool
deriving DecidableEq, Repr

/-- `hasattr(self.auth, "reauth")`; `hasattr(None, "reauth")` is false. -/
def hasattrReauth : Option AuthObj → Bool
  | some a => a.hasReauthAttr
  | none => false

/-- Validator `models.TimeoutValidator` as imported by `session.py` (the
class of that name lives in `restsession/newmodels.py`):
`timeout: Union[StrictInt, StrictFloat]` — strict, so str/bool/None are
rejected. -/
def timeoutStrictValid : PyVal → Bool
  | .vInt _ => true
  | .vFloat _ => true
  | _ => false

/-- Approximation of a Python numeric literal acceptable to a lax
float coercion: optional sign, digits, at most one decimal point, at least
one digit. -/
def isNumericLiteral (s : String) : Bool :=
  let cs :=
    match s.data with
    | '-' :: rest => rest
    | '+' :: rest => rest
    | cs => cs
  !cs.isEmpty
    && cs.all (fun c => c.isDigit || c = '.')
    && decide ((cs.filter (fun c => c = '.')).length ≤ 1)
    && cs.any Char.isDigit

/-- Lax `float` validation applied when assigning
`SessionParamModel.timeout : Union[float, tuple[float, float]]`
(`restsession/newmodels.py`): ints, floats and numeric strings coerce;
bool and None are rejected by pydantic v2 lax mode. -/
def floatLaxValid : PyVal → Bool
  | .vInt _ => true
  | .vFloat _ => true
  | .vStr s => isNumericLiteral s
  | .vBool _ => false
  | .vNone => false

/-- `newmodels.RetryStatusCodeListValidator`:
`retry_status_code_list: list[conint(strict=True, ge=300, le=599)]`. -/
def RetryStatusCodeListValidator (v : List Int) : Except SessionError (List Int) :=
  if v.all (fun code => decide (300 ≤ code) && decide (code ≤ 599)) then
    .ok v
  else
    .error .validationError

/-- Values of Python's `http.HTTPStatus` enumeration (the registered HTTP
status codes used by `src/restsession/models.py`). -/
def httpStatusValues : List Int :=
  [100, 101, 102, 103,
   200, 201, 202, 203, 204, 205, 206, 207, 208, 226,
   300, 301, 302, 303, 304, 305, 307, 308,
   400, 401, 402, 403, 404, 405, 406, 407, 408, 409, 410, 411, 412, 413,
   414, 415, 416, 417, 418, 421, 422, 423, 424, 425, 426, 428, 429, 431, 451,
   500, 501, 502, 503, 504, 505, 506, 507, 508, 510, 511]

/-- Field validation of `retry_status_code_list` in
`src/restsession/models.py`: the field type `list[NonNegativeInt]` first
requires non-negative integers, then the `validate_http_status_code`
field validator requires every code to be a registered `HTTPStatus` value,
rejecting the whole list otherwise. -/
def validate_http_status_code (v : List Int) : Except SessionError (List Int) :=
  if !(v.all (fun code => decide (0 ≤ code))) then
    .error .validationError
  else if v.all (fun code => decide (code ∈ httpStatusValues)) then
    .ok v
  else
    .error .validationError

/-- The facade of `restsession/session.py`.  `http_hooks_response` is the
transport's `self.http.hooks["response"]` list; the `adapter_*` fields are
the state of the two mounted `TimeoutHTTPAdapter`s. -/
structure RestSession where
  timeout : PyVal
  retry_status_code_list : List Int
  redirect_header_hook : List HookFun
  response_hooks : List HookFun
  request_exception_hook : List HookFun
  http_hooks_response : List HookFun
  adapter_https_timeout : PyVal
  adapter_http_timeout : PyVal
  adapter_https_forcelist : List Int
  adapter_http_forcelist : List Int
  reauth_count : Nat
  max_reauth : Nat
  auth : Option AuthObj
deriving DecidableEq, Repr

/-- `session.py` `timeout` setter: validates through `TimeoutValidator`
(raising the pydantic `ValidationError` unwrapped on failure), then stores
the value and updates every mounted adapter's timeout. -/
def RestSession.set_timeout (s : RestSession) (v : PyVal) : Except SessionError RestSession :=
  if timeoutStrictValid v then
    .ok { s with timeout := v, adapter_https_timeout := v, adapter_http_timeout := v }
  else
    .error .validationError

/-- `session.py` `retry_status_code_list` setter: validates through
`RetryStatusCodeListValidator`, then stores the list and updates
`max_retries.status_forcelist` on both mounted adapters. -/
def RestSession.set_retry_status_code_list (s : RestSession) (v : List Int) :
    Except SessionError RestSession :=
  match RetryStatusCodeListValidator v with
  | .ok codes =>
      .ok { s with retry_status_code_list := codes,
                   adapter_https_forcelist := codes,
                   adapter_http_forcelist := codes }
  | .error e => .error e

/-- `session.py` `redirect_header_hook` setter: normalizes to a list, stores
it, and rebuilds the transport list as
`redirect_header_hook + response_hooks + request_exception_hook`. -/
def RestSession.set_redirect_header_hook (s : RestSession) (hook : HookArg) : RestSession :=
  let s' := { s with redirect_header_hook := hook.toList }
  { s' with http_hooks_response :=
      s'.redirect_header_hook ++ s'.response_hooks ++ s'.request_exception_hook }

/-- `session.py` `request_exception_hook` setter: normalizes to a list,
stores it, and rebuilds the transport list as the same concatenation. -/
def RestSession.set_request_exception_hook (s : RestSession) (hook : HookArg) : RestSession :=
  let s' := { s with request_exception_hook := hook.toList }
  { s' with http_hooks_response :=
      s'.redirect_header_hook ++ s'.response_hooks ++ s'.request_exception_hook }

/-- `session.py` `response_hooks` setter: normalizes to a list, appends to
the stored user hooks, and rebuilds the transport list as the
concatenation. -/
def RestSession.set_response_hooks (s : RestSession) (hooks : HookArg) : RestSession :=
  let s' := { s with response_hooks := s.response_hooks ++ hooks.toList }
  { s' with http_hooks_response :=
      s'.redirect_header_hook ++ s'.response_hooks ++ s'.request_exception_hook }

/-- `session.py` `clear_response_hooks()`: resets the stored user hooks to
`[]` and assigns `self.http.hooks["response"] = []`. -/
def RestSession.clear_response_hooks (s : RestSession) : RestSession :=
  { s with response_hooks := [], http_hooks_response := [] }

/-- `session.py` `reauth()`: when the auth object has a `reauth` attribute,
raise `HTTPError` once `reauth_count` has reached `max_reauth`, else
increment the counter and invoke `auth.reauth()`; with no `reauth`
capability the method returns without raising. -/
def RestSession.reauth (s : RestSession) : Except SessionError RestSession :=
  if hasattrReauth s.auth then
    if s.max_reauth ≤ s.reauth_count then
      .error (.requestHTTPError s.reauth_count)
    else
      .ok { s with reauth_count := s.reauth_count + 1 }
  else
    .ok s

/-- `n` successive `reauth()` calls, stopping at the first raise. -/
def RestSession.reauthIter (s : RestSession) : Nat → Except SessionError RestSession
  | 0 => .ok s
  | n + 1 => (s.reauthIter n).bind RestSession.reauth

/-- `RestSession.__init__` with default parameters: the fresh requests
session has an empty `hooks["response"]` list, the adapters are mounted
with the default timeout (5) and status force-list `[408, 413, 429, 503]`,
`reauth_count` starts at 0, then the two hook setters install
`remove_custom_auth_header_on_redirect(auth_headers.keys())` and
`default_request_exception_hook`, and finally `self.max_reauth = 3`. -/
def RestSession.mkDefault (keys : List String) (auth : Option AuthObj) : RestSession :=
  let base : RestSession :=
    { timeout := .vInt 5
      retry_status_code_list := [408, 413, 429, 503]
      redirect_header_hook := [.redirectHook []]
      response_hooks := []
      request_exception_hook := [.exceptionHook]
      http_hooks_response := []
      adapter_https_timeout := .vInt 5
      adapter_http_timeout := .vInt 5
      adapter_https_forcelist := [408, 413, 429, 503]
      adapter_http_forcelist := [408, 413, 429, 503]
      reauth_count := 0
      max_reauth := 3
      auth := auth }
  (base.set_redirect_header_hook (.single (.redirectHook keys))).set_request_exception_hook
    (.single .exceptionHook)

/-- The transport's hook list always being the concatenation
`redirect_header_hook + response_hooks + request_exception_hook` — the
ordering invariant stated in `session.py` (comment at lines 237–240) and in
the spec. -/
def hookInvariant (s : RestSession) : Prop :=
  s.http_hooks_response =
    s.redirect_header_hook ++ s.response_hooks ++ s.request_exception_hook

/-- The facade of `restsession/newsession.py`.  `hooks_response` is the
inherited session's `self.hooks["response"]` list; nested Python lists can
appear in it because of the `redirect_header_hook` setter. -/
structure NewRestSession where
  timeout : PyVal
  redirect_header_hook : List HookFun
  response_hooks : List HookFun
  request_exception_hook : List HookFun
  hooks_response : List HookEntry
deriving DecidableEq, Repr

/-- `newsession.py` `timeout` setter: assigns into `SessionParamModel`
(lax float validation) and wraps any `ValidationError` into
`InvalidParameterError`.  Assignment validation happens before the field is
mutated, so a failed assignment leaves the stored value unchanged. -/
def NewRestSession.set_timeout (s : NewRestSession) (v : PyVal) :
    Except SessionError NewRestSession :=
  if floatLaxValid v then
    .ok { s with timeout := v }
  else
    .error .invalidParameterError

/-- `newsession.py` `redirect_header_hook` setter: normalizes to a list,
stores it, and assigns
`self.hooks["response"] = [redirect_header_hook, response_hooks,
request_exception_hook]` — a three-element list whose elements are lists,
not the concatenation. -/
def NewRestSession.set_redirect_header_hook (s : NewRestSession) (hook : HookArg) :
    NewRestSession :=
  let s' := { s with redirect_header_hook := hook.toList }
  { s' with hooks_response :=
      [.nested s'.redirect_header_hook,
       .nested s'.response_hooks,
       .nested s'.request_exception_hook] }

/-- `newsession.py` `request_exception_hook` setter: normalizes to a list,
stores it, and rebuilds the transport list as the concatenation. -/
def NewRestSession.set_request_exception_hook (s : NewRestSession) (hook : HookArg) :
    NewRestSession :=
  let s' := { s with request_exception_hook := hook.toList }
  { s' with hooks_response :=
      (s'.redirect_header_hook ++ s'.response_hooks ++ s'.request_exception_hook).map .fn }

/-- `newsession.py` `response_hooks` setter: appends and rebuilds the
transport list as the concatenation. -/
def NewRestSession.set_response_hooks (s : NewRestSession) (hooks : HookArg) :
    NewRestSession :=
  let s' := { s with response_hooks := s.response_hooks ++ hooks.toList }
  { s' with hooks_response :=
      (s'.redirect_header_hook ++ s'.response_hooks ++ s'.request_exception_hook).map .fn }

/-- `newsession.py` `clear_response_hooks()`: resets the stored user hooks
and assigns `self.hooks["response"] = []`. -/
def NewRestSession.clear_response_hooks (s : NewRestSession) : NewRestSession :=
  { s with response_hooks := [], hooks_response := [] }

/-- `newsession.RestSession.__init__()` with defaults: the inherited session
starts with an empty hook list, and the two hook fields are written directly
into `_session_params` (no transport rebuild happens during `__init__`). -/
def NewRestSession.mkDefault : NewRestSession :=
  { timeout := .vInt 5
    redirect_header_hook := [.redirectHook []]
    response_hooks := []
    request_exception_hook := [.exceptionHook]
    hooks_response := [] }

/-- Characters after the first `//` of a URL, up to the next `/`, `?` or
`#`. -/
def netlocChars : List Char → List Char
  | [] => []
  | '/' :: '/' :: rest => rest.takeWhile (fun c => !(c = '/' || c = '?' || c = '#'))
  | _ :: rest => netlocChars rest

/-- `urllib.parse.urlparse(url).netloc` for the URLs handled here: the text
between the first `//` and the next `/`, `?` or `#`.  The netloc carries
host and port but not the scheme. -/
def urlparse_netloc (url : String) : String :=
  String.mk (netlocChars url.data)

/-- The scheme component of a URL (text before the first `:`). -/
def urlparse_scheme (url : String) : String :=
  String.mk (url.data.takeWhile (fun c => !(c = ':')))

/-- The origin of a URL in the sense of the spec's cross-origin definition:
scheme together with host and port. -/
def url_origin (url : String) : String × String :=
  (urlparse_scheme url, urlparse_netloc url)

/-- A prepared request as seen by the redirect hook: its URL and its header
mapping (association list, insertion order preserved as in Python). -/
structure PreparedRequest where
  url : String
  headers : List (String × String)
deriving DecidableEq, Repr

/-- The slice of a `requests.Response` the redirect hook reads: the status
code, the `Location` response header if present, and the request that
produced the response. -/
structure HttpResponse where
  status_code : Nat
  location : Option String
  request : PreparedRequest
deriving DecidableEq, Repr

/-- `requests.Response.is_redirect`: a `Location` header is present and the
status code is one of 301, 302, 303, 307, 308. -/
def HttpResponse.is_redirect (r : HttpResponse) : Bool :=
  r.location.isSome && decide (r.status_code ∈ [301, 302, 303, 307, 308])

/-- The hook produced by `remove_custom_auth_header_on_redirect(headers)`
(`restsession/default_hooks.py`, lines 69–101): when the response is a
redirect, the configured key list is non-empty, and the netloc of the
original request's URL differs from the netloc of the `Location` target,
rebuild the retried request's headers keeping only the pairs whose key is
not configured; otherwise leave the response untouched. -/
def remove_custom_auth_header_on_redirect (headers : List String)
    (response : HttpResponse) : HttpResponse :=
  if response.is_redirect && !headers.isEmpty
      && decide (urlparse_netloc response.request.url
                  ≠ urlparse_netloc (response.location.getD "")) then
    { response with request :=
        { response.request with headers :=
            response.request.headers.filter (fun kv => !decide (kv.1 ∈ headers)) } }
  else
    response

/-- Characters of the literal `https`. -/
def schemeHttps : List Char := ['h', 't', 't', 'p', 's']

/-- Characters of the literal `http`. -/
def schemeHttp : List Char := ['h', 't', 't', 'p']

/-- Characters of the literal `://`. -/
def schemeSep : List Char := [':', '/', '/']

/-- Consume an expected literal from the front of the input, returning the
remainder, or `none` when the input does not start with the literal. -/
def dropLit : List Char → List Char → Option (List Char)
  | [], cs => some cs
  | _ :: _, [] => none
  | l :: ls, c :: cs => if c = l then dropLit ls cs else none

/-- A parsed absolute http/https URL: scheme, authority (host, non-empty,
containing no `/`), and the path (either empty or starting with `/`). -/
structure ParsedHttpUrl where
  scheme : List Char
  host : List Char
  path : List Char
deriving DecidableEq, Repr

/-- Split the remainder after `scheme://` into authority (everything before
the first `/`) and path (the rest); fail on an empty authority. -/
def parseHostPath (scheme rest : List Char) : Option ParsedHttpUrl :=
  if (rest.takeWhile (fun c => !(c = '/'))).isEmpty then
    none
  else
    some ⟨scheme, rest.takeWhile (fun c => !(c = '/')),
          rest.dropWhile (fun c => !(c = '/'))⟩

/-- Validation and normalization performed by pydantic's `AnyHttpUrl` (the
external collaborator consumed by `src/restsession/models.py`) restricted to
the fragment relevant here: the URL must be absolute with scheme `http` or
`https` and a non-empty authority; an empty path renders as `/`. -/
def parseAnyHttpUrl (cs : List Char) : Option ParsedHttpUrl :=
  match dropLit (schemeHttps ++ schemeSep) cs with
  | some rest => parseHostPath schemeHttps rest
  | none =>
    match dropLit (schemeHttp ++ schemeSep) cs with
    | some rest => parseHostPath schemeHttp rest
    | none => none

/-- Serialization of a parsed URL back to text, as `str(AnyHttpUrl(...))`
does: an empty path becomes `/`. -/
def renderAnyHttpUrl (u : ParsedHttpUrl) : List Char :=
  u.scheme ++ schemeSep ++ u.host ++ (if u.path.isEmpty then ['/'] else u.path)

/-- The `AnyUrlString` annotated type of `src/restsession/models.py`:
validate as `AnyHttpUrl`, then convert back to a string. -/
def anyUrlString (s : String) : Option String :=
  (parseAnyHttpUrl s.data).map (fun u => String.mk (renderAnyHttpUrl u))

/-- The `base_url_ends_with_slash` field validator of
`src/restsession/models.py`: append a trailing `/` when the validated URL
does not already end with one. -/
def base_url_ends_with_slash (v : String) : String :=
  if v.data.getLast? = some '/' then v else v ++ "/"

/-- Assignment to `SessionParamModel.base_url` in
`src/restsession/models.py`: `None` is allowed; a string must validate as an
`AnyHttpUrl` (else the assignment raises) and the stored value is the
re-serialized URL with a trailing slash enforced. -/
def set_base_url (v : Option String) : Except SessionError (Option String) :=
  match v with
  | none => .ok none
  | some s =>
    match anyUrlString s with
    | none => .error .validationError
    | some u => .ok (some (base_url_ends_with_slash u))

/-- The keyword arguments relevant to request dispatch. -/
structure RequestKwargs where
  timeout : Option PyVal
  allow_redirects : Option Bool
deriving DecidableEq, Repr

/-- What reaches the transport for one request: after
`requests.Session.request` applies its `allow_redirects=True` default and
`TimeoutHTTPAdapter.send` substitutes the adapter timeout for a missing
`timeout` keyword. -/
structure TransportDispatch where
  method : String
  url : String
  timeout : PyVal
  allow_redirects : Bool
deriving DecidableEq, Repr

/-- `self.http.request(method, url, **kwargs)` followed by the adapter's
`send`: a caller-supplied timeout is used as-is, otherwise the mounted
adapter's timeout applies; redirect following defaults to on. -/
def http_request (adapterTimeout : PyVal) (method url : String)
    (kwargs : RequestKwargs) : TransportDispatch :=
  { method := method
    url := url
    timeout := kwargs.timeout.getD adapterTimeout
    allow_redirects := kwargs.allow_redirects.getD true }

/-- Dispatch through the session's transport, consulting the adapter
mounted for the URL's scheme. -/
def RestSession.transport_request (s : RestSession) (method url : String)
    (kwargs : RequestKwargs) : TransportDispatch :=
  let adapterTimeout :=
    if urlparse_scheme url = "https" then s.adapter_https_timeout
    else s.adapter_http_timeout
  http_request adapterTimeout method url kwargs

/-- `session.py` `request`: delete any caller-supplied `timeout` from the
keyword arguments, then dispatch with `timeout=self.timeout`. -/
def RestSession.request (s : RestSession) (method url : String)
    (kwargs : RequestKwargs) : TransportDispatch :=
  let kwargs := { kwargs with timeout := none }
  s.transport_request method url { kwargs with timeout := some s.timeout }

/-- `session.py` `get`: calls `self.http.request("get", url, ...)` directly,
passing the caller's keyword arguments through. -/
def RestSession.get (s : RestSession) (url : String) (kwargs : RequestKwargs) :
    TransportDispatch :=
  s.transport_request "get" url kwargs

/-- `session.py` `options`: direct transport call. -/
def RestSession.options (s : RestSession) (url : String) (kwargs : RequestKwargs) :
    TransportDispatch :=
  s.transport_request "options" url kwargs

/-- `session.py` `head`: applies `kwargs.setdefault("allow_redirects",
False)` and then calls the transport directly. -/
def RestSession.head (s : RestSession) (url : String) (kwargs : RequestKwargs) :
    TransportDispatch :=
  s.transport_request "head" url
    { kwargs with allow_redirects := some (kwargs.allow_redirects.getD false) }

/-- `session.py` `post`: direct transport call. -/
def RestSession.post (s : RestSession) (url : String) (kwargs : RequestKwargs) :
    TransportDispatch :=
  s.transport_request "post" url kwargs

/-- `session.py` `put`: direct transport call. -/
def RestSession.put (s : RestSession) (url : String) (kwargs : RequestKwargs) :
    TransportDispatch :=
  s.transport_request "put" url kwargs

/-- `session.py` `patch`: direct transport call. -/
def RestSession.patch (s : RestSession) (url : String) (kwargs : RequestKwargs) :
    TransportDispatch :=
  s.transport_request "patch" url kwargs

/-- `session.py` `delete`: direct transport call. -/
def RestSession.delete (s : RestSession) (url : String) (kwargs : RequestKwargs) :
    TransportDispatch :=
  s.transport_request "delete" url kwargs

/-- The `_instances` cache of the `Singleton` metaclass
(`src/restsession/metaclass.py`), with object identity modeled by
allocation order: `next_id` is the identity the next construction would
allocate. -/
structure SingletonRegistry where
  instances : List (String × Nat)
  next_id : Nat
deriving DecidableEq, Repr

/-- `Singleton.__call__`: return the cached instance for the class when one
exists (the constructor arguments are not consulted), otherwise construct a
fresh instance, cache it, and return it. -/
def Singleton_call (w : SingletonRegistry) (cls : String) (_args : List PyVal) :
    Nat × SingletonRegistry :=
  match w.instances.lookup cls with
  | some inst => (inst, w)
  | none =>
      (w.next_id,
       { instances := (cls, w.next_id) :: w.instances, next_id := w.next_id + 1 })

/-- `RestSessionSingleton.__exit__`: after closing the transport session,
assign `RestSessionSingleton._instances = {}`, emptying the cache consulted
by later constructions. -/
def RestSessionSingleton_exit (w : SingletonRegistry) : SingletonRegistry :=
  { w with instances := [] }

/-- Construction of the plain (non-singleton) class: every call allocates a
fresh object. -/
def plain_construct (w : SingletonRegistry) : Nat × SingletonRegistry :=
  (w.next_id, { w with next_id := w.next_id + 1 })

/-- A concrete cross-origin redirect whose origin change is a scheme change
only: `http://example.com/a` redirecting to `https://example.com/b`. -/
def crossSchemeRedirect : HttpResponse :=
  { status_code := 302
    location := some "https://example.com/b"
    request :=
      { url := "http://example.com/a"
        headers := [("Authorization", "Basic dXNlcjpwYXNz"),
                    ("X-Auth-Token", "token-123")] } }

/-- A concrete redirect whose target lives on a different host. -/
def crossNetlocRedirect : HttpResponse :=
  { status_code := 302
    location := some "https://other.example.net/b"
    request :=
      { url := "http://example.com/a"
        headers := [("Authorization", "Basic dXNlcjpwYXNz"),
                    ("X-Auth-Token", "token-123")] } }

/-- A concrete same-origin redirect. -/
def sameNetlocRedirect : HttpResponse :=
  { status_code := 302
    location := some "http://example.com/c"
    request :=
      { url := "http://example.com/a"
        headers := [("Authorization", "Basic dXNlcjpwYXNz"),
                    ("X-Auth-Token", "token-123")] } }

/-- C1: after every mutation of `redirect_header_hook`, `response_hooks` or
`request_exception_hook` the transport's response-hook list is the
concatenation `[redirect hook] + user hooks + [exception hook]`.  The three
property setters of `session.py` do maintain this, but two hook-field
mutations in the repository break it: `clear_response_hooks()` (a mutation
of `response_hooks`) leaves the transport list empty instead of
`[redirect] + [] + [exception]`, and the `redirect_header_hook` setter of
`newsession.py` stores a nested list of the three segments rather than
their concatenation. -/
theorem hook_pipeline_rebuild_invariant_gap :
    (∀ (s : RestSession) (a : HookArg),
        hookInvariant (s.set_redirect_header_hook a)
        ∧ hookInvariant (s.set_request_exception_hook a)
        ∧ hookInvariant (s.set_response_hooks a))
    ∧ ¬ hookInvariant ((RestSession.mkDefault ["X-Auth-Token"] none).clear_response_hooks)
    ∧ (NewRestSession.mkDefault.set_redirect_header_hook
          (.single (.redirectHook ["X-Auth-Token"]))).hooks_response
        ≠ ((NewRestSession.mkDefault.set_redirect_header_hook
              (.single (.redirectHook ["X-Auth-Token"]))).redirect_header_hook
            ++ (NewRestSession.mkDefault.set_redirect_header_hook
                  (.single (.redirectHook ["X-Auth-Token"]))).response_hooks
            ++ (NewRestSession.mkDefault.set_redirect_header_hook
                  (.single (.redirectHook ["X-Auth-Token"]))).request_exception_hook).map
            HookEntry.fn := by
  refine ⟨fun s a => ⟨rfl, rfl, rfl⟩, ?_, by decide⟩
  simp only [hookInvariant]
  decide

/-- C6: after `clear_response_hooks()` the user-hook segment is empty, but
contrary to the claim (and to the repository's own tests, which expect two
remaining hooks) the transport's response-hook list is empty as well: the
redirect hook is not in first position and the exception hook is not in
last position, both having been dropped from the transport. -/
theorem clear_response_hooks_empties_transport_list :
    (RestSession.mkDefault ["X-Auth-Token"] none).http_hooks_response
        = [.redirectHook ["X-Auth-Token"], .exceptionHook]
    ∧ ((RestSession.mkDefault ["X-Auth-Token"] none).clear_response_hooks).response_hooks = []
    ∧ ((RestSession.mkDefault ["X-Auth-Token"] none).clear_response_hooks).http_hooks_response = []
    ∧ ((RestSession.mkDefault ["X-Auth-Token"] none).clear_response_hooks).http_hooks_response.head?
        ≠ some (.redirectHook ["X-Auth-Token"]) := by
  decide

/-- C3: an invalid `timeout` assignment leaves the stored value unchanged in
both facades (validation precedes the store, so the failed assignment
returns an error without a new state), but the exception types differ:
`newsession.py` wraps the failure into `InvalidParameterError` as the claim
states, while `session.py` lets the pydantic `ValidationError` escape
unwrapped — contradicting the repository's tests, which expect
`InvalidParameterError` from attribute assignment on these classes. -/
theorem invalid_timeout_raises_unwrapped_validation_error :
    RestSession.set_timeout (RestSession.mkDefault [] none) (.vStr "Invalid string")
        = .error .validationError
    ∧ NewRestSession.set_timeout NewRestSession.mkDefault (.vStr "Invalid string")
        = .error .invalidParameterError
    ∧ SessionError.validationError ≠ SessionError.invalidParameterError := by
  decide

/-- Counterexample for C4: the current model's `validate_http_status_code`
accepts `[200]` even though 200 lies outside `[300, 599]`, and the facade's
`RetryStatusCodeListValidator` accepts `[450]` even though 450 is not a
registered HTTP status code; the facade setter then pushes `[450]` into
both adapters' force-lists.  Each validator enforces only one half of the
claimed conjunction. -/
theorem retry_status_code_validators_accept_claimed_invalid :
    validate_http_status_code [200] = .ok [200]
    ∧ RetryStatusCodeListValidator [450] = .ok [450]
    ∧ RestSession.set_retry_status_code_list (RestSession.mkDefault [] none) [450]
        = .ok { RestSession.mkDefault [] none with
                retry_status_code_list := [450]
                adapter_https_forcelist := [450]
                adapter_http_forcelist := [450] } := by
  decide

/-- Registered status codes are non-negative, so the `NonNegativeInt` field
check never rejects a list of registered codes. -/
theorem httpStatusValues_nonneg : ∀ x ∈ httpStatusValues, (0 : Int) ≤ x := by
  decide

/-- C4 (amended): the current model accepts a status-code list exactly when
every element is a registered HTTP status code (rejecting the whole list
otherwise, with no filtering), while the facade validator accepts exactly
the lists whose elements all lie in `[300, 599]`; every list the facade
setter accepts is stored and propagated verbatim to both mounted adapters'
status force-lists. -/
theorem retry_status_code_validation_semantics :
    (∀ v : List Int,
        validate_http_status_code v = .ok v
          ↔ v.all (fun code => decide (code ∈ httpStatusValues)) = true)
    ∧ (∀ (s : RestSession) (v : List Int),
        v.all (fun code => decide (300 ≤ code) && decide (code ≤ 599)) = true →
          s.set_retry_status_code_list v
            = .ok { s with retry_status_code_list := v
                           adapter_https_forcelist := v
                           adapter_http_forcelist := v })
    ∧ (∀ (s : RestSession) (v : List Int),
        v.all (fun code => decide (300 ≤ code) && decide (code ≤ 599)) = false →
          s.set_retry_status_code_list v = .error .validationError) := by
  refine ⟨fun v => ?_, fun s v h => ?_, fun s v h => ?_⟩
  · constructor
    · intro h
      unfold validate_http_status_code at h
      split at h
      · exact absurd h (by simp)
      · split at h
        · assumption
        · exact absurd h (by simp)
    · intro h
      have hnn : v.all (fun code => decide ((0 : Int) ≤ code)) = true := by
        rw [List.all_eq_true] at h ⊢
        intro x hx
        have hmem : x ∈ httpStatusValues := of_decide_eq_true (h x hx)
        exact decide_eq_true (httpStatusValues_nonneg x hmem)
      simp [validate_http_status_code, hnn, h]
  · simp [RestSession.set_retry_status_code_list, RetryStatusCodeListValidator, h]
  · simp [RestSession.set_retry_status_code_list, RetryStatusCodeListValidator, h]

/-- Witness for the C4 amended theorem at the registered in-range list
`[429, 503]`. -/
theorem retry_status_code_validation_semantics_witness :
    validate_http_status_code [429, 503] = .ok [429, 503]
    ∧ RestSession.set_retry_status_code_list (RestSession.mkDefault [] none) [429, 503]
        = .ok { RestSession.mkDefault [] none with
                retry_status_code_list := [429, 503]
                adapter_https_forcelist := [429, 503]
                adapter_http_forcelist := [429, 503] } :=
  ⟨(retry_status_code_validation_semantics.1 [429, 503]).2 (by decide),
   retry_status_code_validation_semantics.2.1 _ [429, 503] (by decide)⟩

/-- Counterexample for C5: with a configured auth object that has no
`reauth` capability, `reauth()` returns normally (a no-op) instead of
raising the max-reauth-exceeded error the claim's `otherwise` branch
predicts. -/
theorem reauth_without_capability_returns :
    hasattrReauth (RestSession.mkDefault [] (some ⟨false⟩)).auth = false
    ∧ RestSession.reauth (RestSession.mkDefault [] (some ⟨false⟩))
        = .ok (RestSession.mkDefault [] (some ⟨false⟩)) := by
  decide

/-- Successive `reauth()` calls below the budget only increment the
counter. -/
theorem reauthIter_below_budget (s : RestSession) (n : Nat)
    (hattr : hasattrReauth s.auth = true) (h0 : s.reauth_count = 0)
    (hle : n ≤ s.max_reauth) :
    s.reauthIter n = .ok { s with reauth_count := n } := by
  induction n with
  | zero =>
      simp only [RestSession.reauthIter]
      rw [← h0]
  | succ n ih =>
      have hn : s.reauthIter n = .ok { s with reauth_count := n } :=
        ih (Nat.le_of_succ_le hle)
      simp only [RestSession.reauthIter, hn, Except.bind]
      have hlt : n < s.max_reauth := Nat.lt_of_succ_le hle
      simp [RestSession.reauth, hattr, Nat.not_le.mpr hlt]

/-- C5 (amended): when the auth object exposes `reauth` and the counter is
below `max_reauth`, `reauth()` increments the counter by one (and invokes
the auth object's reauth); when the counter has reached `max_reauth`, it
raises the max-reauth-exceeded HTTP error; when the auth object lacks the
capability, `reauth()` is a no-op that raises nothing.  Consequently, with
`max_reauth = N` and a reauth-capable auth object, the first N calls
succeed, leaving the counter at N, and the (N+1)th call raises. -/
theorem reauth_budget_semantics :
    (∀ s : RestSession, hasattrReauth s.auth = true → s.reauth_count < s.max_reauth →
        s.reauth = .ok { s with reauth_count := s.reauth_count + 1 })
    ∧ (∀ s : RestSession, hasattrReauth s.auth = true → s.max_reauth ≤ s.reauth_count →
        s.reauth = .error (.requestHTTPError s.reauth_count))
    ∧ (∀ s : RestSession, hasattrReauth s.auth = false → s.reauth = .ok s)
    ∧ (∀ (N : Nat) (s : RestSession),
        hasattrReauth s.auth = true → s.reauth_count = 0 → s.max_reauth = N →
          s.reauthIter N = .ok { s with reauth_count := N }
          ∧ s.reauthIter (N + 1) = .error (.requestHTTPError N)) := by
  refine ⟨fun s h hlt => ?_, fun s h hle => ?_, fun s h => ?_, fun N s hattr h0 hmax => ?_⟩
  · simp [RestSession.reauth, h, Nat.not_le.mpr hlt]
  · simp [RestSession.reauth, h, hle]
  · simp [RestSession.reauth, h]
  · have hN : s.reauthIter N = .ok { s with reauth_count := N } :=
      reauthIter_below_budget s N hattr h0 (Nat.le_of_eq hmax.symm)
    refine ⟨hN, ?_⟩
    simp only [RestSession.reauthIter, hN, Except.bind]
    simp [RestSession.reauth, hattr, hmax]

/-- Witness for the C5 amended theorem: a reauth-capable session with
`max_reauth = 2` survives two `reauth()` calls and raises on the third. -/
theorem reauth_budget_semantics_witness :
    ({ RestSession.mkDefault [] (some ⟨true⟩) with max_reauth := 2 } : RestSession).reauthIter 2
      = .ok { ({ RestSession.mkDefault [] (some ⟨true⟩) with max_reauth := 2 } : RestSession) with
              reauth_count := 2 }
    ∧ ({ RestSession.mkDefault [] (some ⟨true⟩) with max_reauth := 2 } : RestSession).reauthIter 3
      = .error (.requestHTTPError 2) :=
  reauth_budget_semantics.2.2.2 2
    { RestSession.mkDefault [] (some ⟨true⟩) with max_reauth := 2 }
    (by decide) (by decide) rfl

/-- Counterexample for C2: `http://example.com/a` redirecting to
`https://example.com/b` changes the origin (the scheme differs) but not the
netloc, and the hook — which compares `urlparse(...).netloc` only — leaves
every header of the retried request in place, including the configured
`X-Auth-Token`. -/
theorem redirect_hook_keeps_auth_on_scheme_change :
    url_origin crossSchemeRedirect.request.url
        ≠ url_origin (crossSchemeRedirect.location.getD "")
    ∧ crossSchemeRedirect.is_redirect = true
    ∧ remove_custom_auth_header_on_redirect ["X-Auth-Token"] crossSchemeRedirect
        = crossSchemeRedirect
    ∧ decide (("X-Auth-Token", "token-123")
        ∈ (remove_custom_auth_header_on_redirect ["X-Auth-Token"]
            crossSchemeRedirect).request.headers) = true := by
  decide

/-- C2 (amended): on a redirect whose `Location` target has a different
netloc (host and port) from the original request's URL, every configured
auth header key is absent from the retried request's headers; on a redirect
to the same netloc — even when the scheme, and hence the origin, changes —
the response and its request headers are left untouched. -/
theorem redirect_hook_netloc_semantics :
    ∀ (keys : List String) (resp : HttpResponse),
      (resp.is_redirect = true →
        urlparse_netloc resp.request.url ≠ urlparse_netloc (resp.location.getD "") →
        ∀ k ∈ keys,
          ((remove_custom_auth_header_on_redirect keys resp).request.headers.all
            (fun kv => !(kv.1 = k))) = true)
      ∧ (urlparse_netloc resp.request.url = urlparse_netloc (resp.location.getD "") →
          remove_custom_auth_header_on_redirect keys resp = resp) := by
  intro keys resp
  constructor
  · intro hred hne k hk
    cases hkeys : keys.isEmpty with
    | true =>
        rw [List.isEmpty_iff] at hkeys
        subst hkeys
        simp at hk
    | false =>
        have hcond : (resp.is_redirect && !keys.isEmpty
            && decide (urlparse_netloc resp.request.url
                ≠ urlparse_netloc (resp.location.getD ""))) = true := by
          simp [hred, hkeys, hne]
        rw [remove_custom_auth_header_on_redirect, if_pos hcond]
        rw [List.all_eq_true]
        intro kv hkv
        have hnotin : ¬ kv.1 ∈ keys := by
          have := (List.mem_filter.mp hkv).2
          simpa using this
        simp only [Bool.not_eq_true']
        exact decide_eq_false (fun hEq => hnotin (hEq ▸ hk))
  · intro heq
    rw [remove_custom_auth_header_on_redirect, if_neg]
    simp [heq]

/-- Witness for the C2 amended theorem: a cross-netloc redirect strips the
configured `X-Auth-Token` from the retried request, while a same-netloc
redirect leaves the response untouched. -/
theorem redirect_hook_netloc_semantics_witness :
    ((remove_custom_auth_header_on_redirect ["X-Auth-Token"]
        crossNetlocRedirect).request.headers.all
      (fun kv => !(kv.1 = "X-Auth-Token"))) = true
    ∧ remove_custom_auth_header_on_redirect ["X-Auth-Token"] sameNetlocRedirect
        = sameNetlocRedirect :=
  ⟨(redirect_hook_netloc_semantics ["X-Auth-Token"] crossNetlocRedirect).1
      (by decide) (by decide) "X-Auth-Token" (by decide),
   (redirect_hook_netloc_semantics ["X-Auth-Token"] sameNetlocRedirect).2 (by decide)⟩

/-- Counterexample for C8: `get` passes a caller-supplied `timeout` straight
through to the transport, so with an instance timeout of 5 the dispatched
timeout is the caller's 7, not the instance's 5 — the claim that the
instance timeout wins for every verb helper is false. -/
theorem get_honors_caller_timeout :
    ((RestSession.mkDefault [] none).get "http://example.com/x"
        { timeout := some (.vInt 7), allow_redirects := none }).timeout = .vInt 7
    ∧ (RestSession.mkDefault [] none).timeout = .vInt 5
    ∧ PyVal.vInt 7 ≠ PyVal.vInt 5 := by
  decide

/-- C8 (amended): `request` discards any caller-supplied timeout and always
dispatches with the instance's configured timeout; the verb helpers,
however, call the transport directly rather than going through `request`,
so a caller-supplied timeout in a verb-helper call is dispatched as
given. -/
theorem timeout_dispatch_semantics :
    (∀ (s : RestSession) (m u : String) (kw : RequestKwargs),
        (s.request m u kw).timeout = s.timeout)
    ∧ (∀ (s : RestSession) (u : String) (kw : RequestKwargs) (t : PyVal),
        kw.timeout = some t →
          (s.get u kw).timeout = t ∧ (s.post u kw).timeout = t
          ∧ (s.put u kw).timeout = t ∧ (s.patch u kw).timeout = t
          ∧ (s.delete u kw).timeout = t ∧ (s.options u kw).timeout = t
          ∧ (s.head u kw).timeout = t) := by
  refine ⟨fun s m u kw => rfl, fun s u kw t h => ?_⟩
  refine ⟨?_, ?_, ?_, ?_, ?_, ?_, ?_⟩ <;>
    simp [RestSession.get, RestSession.post, RestSession.put, RestSession.patch,
          RestSession.delete, RestSession.options, RestSession.head,
          RestSession.transport_request, http_request, h]

/-- Witness for the C8 amended theorem: `request` dispatches the instance
timeout even when the caller supplies 9, while `post` dispatches the
caller's 9. -/
theorem timeout_dispatch_semantics_witness :
    ((RestSession.mkDefault [] none).request "get" "http://example.com/x"
        { timeout := some (.vInt 9), allow_redirects := none }).timeout
      = (RestSession.mkDefault [] none).timeout
    ∧ ((RestSession.mkDefault [] none).post "http://example.com/x"
        { timeout := some (.vInt 9), allow_redirects := none }).timeout = .vInt 9 :=
  ⟨timeout_dispatch_semantics.1 (RestSession.mkDefault [] none) "get" "http://example.com/x"
      { timeout := some (.vInt 9), allow_redirects := none },
   (timeout_dispatch_semantics.2 (RestSession.mkDefault [] none) "http://example.com/x"
      { timeout := some (.vInt 9), allow_redirects := none } (.vInt 9) rfl).1⟩

/-- C10: when the caller does not pass `allow_redirects`, `head` dispatches
with redirect following disabled, while every other verb helper leaves it
at the transport default of enabled. -/
theorem head_disables_redirects_by_default :
    ∀ (s : RestSession) (u : String) (kw : RequestKwargs),
      kw.allow_redirects = none →
        (s.head u kw).allow_redirects = false
        ∧ (s.get u kw).allow_redirects = true
        ∧ (s.post u kw).allow_redirects = true
        ∧ (s.put u kw).allow_redirects = true
        ∧ (s.patch u kw).allow_redirects = true
        ∧ (s.delete u kw).allow_redirects = true
        ∧ (s.options u kw).allow_redirects = true := by
  intro s u kw h
  refine ⟨?_, ?_, ?_, ?_, ?_, ?_, ?_⟩ <;>
    simp [RestSession.get, RestSession.post, RestSession.put, RestSession.patch,
          RestSession.delete, RestSession.options, RestSession.head,
          RestSession.transport_request, http_request, h]

/-- Witness for C10 with no caller-supplied keyword arguments. -/
theorem head_disables_redirects_by_default_witness :
    ((RestSession.mkDefault [] none).head "http://example.com/x"
        { timeout := none, allow_redirects := none }).allow_redirects = false
    ∧ ((RestSession.mkDefault [] none).get "http://example.com/x"
        { timeout := none, allow_redirects := none }).allow_redirects = true :=
  ⟨(head_disables_redirects_by_default (RestSession.mkDefault [] none) "http://example.com/x"
      { timeout := none, allow_redirects := none } rfl).1,
   (head_disables_redirects_by_default (RestSession.mkDefault [] none) "http://example.com/x"
      { timeout := none, allow_redirects := none } rfl).2.1⟩

/-- A successful cache lookup comes from an entry of the cache. -/
theorem lookup_mem_pair {l : List (String × Nat)} {k : String} {v : Nat}
    (h : l.lookup k = some v) : (k, v) ∈ l := by
  induction l with
  | nil => simp [List.lookup] at h
  | cons p t ih =>
      rw [List.lookup] at h
      by_cases hk : k = p.1
      · rw [show (k == p.1) = true from beq_iff_eq.mpr hk] at h
        simp only [Option.some.injEq] at h
        subst hk
        subst h
        exact List.mem_cons_self _ _
      · rw [show (k == p.1) = false from beq_eq_false_iff_ne.mpr hk] at h
        exact List.mem_cons_of_mem _ (ih h)

/-- C9: from any well-formed cache state (cached identities precede the
allocator), constructing the singleton class twice yields the identical
cached object with the second call's constructor arguments ignored; after
the context-manager exit clears the cache, the next construction yields a
distinct fresh object; constructing the plain class twice always yields
distinct objects. -/
theorem singleton_identity_semantics :
    ∀ (w : SingletonRegistry) (cls : String) (a1 a2 a3 : List PyVal),
      (∀ p ∈ w.instances, p.2 < w.next_id) →
        (Singleton_call (Singleton_call w cls a1).2 cls a2).1 = (Singleton_call w cls a1).1
        ∧ (Singleton_call (RestSessionSingleton_exit (Singleton_call w cls a1).2) cls a3).1
            ≠ (Singleton_call w cls a1).1
        ∧ (plain_construct (plain_construct w).2).1 ≠ (plain_construct w).1 := by
  intro w cls a1 a2 a3 hwf
  refine ⟨?_, ?_, ?_⟩
  · cases hl : w.instances.lookup cls with
    | some inst => simp [Singleton_call, hl]
    | none => simp [Singleton_call, hl, List.lookup]
  · cases hl : w.instances.lookup cls with
    | some inst =>
        have hmem : (cls, inst) ∈ w.instances := lookup_mem_pair hl
        have hlt : inst < w.next_id := hwf (cls, inst) hmem
        simp [Singleton_call, RestSessionSingleton_exit, hl, List.lookup]
        exact Nat.ne_of_gt hlt
    | none =>
        simp [Singleton_call, RestSessionSingleton_exit, hl, List.lookup]
  · simp [plain_construct]

/-- Witness for C9, starting from the empty cache. -/
theorem singleton_identity_semantics_witness :
    (Singleton_call (Singleton_call ⟨[], 0⟩ "RestSessionSingleton" []).2
        "RestSessionSingleton" [.vInt 1]).1
      = (Singleton_call ⟨[], 0⟩ "RestSessionSingleton" []).1
    ∧ (Singleton_call
          (RestSessionSingleton_exit (Singleton_call ⟨[], 0⟩ "RestSessionSingleton" []).2)
          "RestSessionSingleton" []).1
        ≠ (Singleton_call ⟨[], 0⟩ "RestSessionSingleton" []).1
    ∧ (plain_construct (plain_construct ⟨[], 0⟩).2).1 ≠ (plain_construct ⟨[], 0⟩).1 :=
  singleton_identity_semantics ⟨[], 0⟩ "RestSessionSingleton" [] [.vInt 1] []
    (by intro p hp; simp at hp)

/-- Appending text to a string concatenates the character lists. -/
theorem string_data_append (s t : String) : (s ++ t).data = s.data ++ t.data := by
  obtain ⟨sd⟩ := s
  obtain ⟨td⟩ := t
  rfl

/-- Consuming a literal from an input that starts with it leaves the
rest. -/
theorem dropLit_append (ls cs : List Char) : dropLit ls (ls ++ cs) = some cs := by
  induction ls with
  | nil => rfl
  | cons l ls ih => simp [dropLit, ih]

/-- The remainder after `dropWhile` is empty or starts with a character
failing the predicate. -/
theorem dropWhile_shape (p : Char → Bool) (l : List Char) :
    l.dropWhile p = [] ∨ ∃ c t, l.dropWhile p = c :: t ∧ p c = false := by
  induction l with
  | nil => exact Or.inl rfl
  | cons a l ih =>
      by_cases hp : p a
      · rw [List.dropWhile_cons_of_pos hp]
        exact ih
      · rw [List.dropWhile_cons_of_neg hp]
        exact Or.inr ⟨a, l, rfl, by simpa using hp⟩

/-- `takeWhile`/`dropWhile` recover the two halves of an append whose left
half satisfies the predicate and whose right half is empty or starts with a
failing character. -/
theorem takeWhile_append_all {p : Char → Bool} {h rest : List Char}
    (hall : ∀ c ∈ h, p c = true)
    (hrest : rest = [] ∨ ∃ c t, rest = c :: t ∧ p c = false) :
    (h ++ rest).takeWhile p = h ∧ (h ++ rest).dropWhile p = rest := by
  induction h with
  | nil =>
      simp only [List.nil_append]
      rcases hrest with hnil | ⟨c, t, hct, hc⟩
      · subst hnil
        exact ⟨rfl, rfl⟩
      · subst hct
        constructor
        · rw [List.takeWhile_cons_of_neg (by simp [hc])]
        · rw [List.dropWhile_cons_of_neg (by simp [hc])]
  | cons a h ih =>
      have pa : p a = true := hall a (List.mem_cons_self a h)
      have ih' := ih (fun c hc => hall c (List.mem_cons_of_mem a hc))
      simp only [List.cons_append, List.takeWhile_cons_of_pos pa,
                 List.dropWhile_cons_of_pos pa]
      exact ⟨by rw [ih'.1], ih'.2⟩

/-- Structure of a successful `parseHostPath`: the host is the non-empty
slash-free authority segment and the path is empty or starts with `/`. -/
theorem parseHostPath_facts {scheme rest : List Char} {u : ParsedHttpUrl}
    (h : parseHostPath scheme rest = some u) :
    u.scheme = scheme
    ∧ u.host ≠ []
    ∧ (∀ c ∈ u.host, ¬ c = '/')
    ∧ (u.path = [] ∨ ∃ t, u.path = '/' :: t) := by
  unfold parseHostPath at h
  split at h
  · exact absurd h (by simp)
  · rename_i hne
    simp only [Option.some.injEq] at h
    subst h
    refine ⟨rfl, ?_, ?_, ?_⟩
    · intro hcontra
      rw [List.isEmpty_iff] at hne
      exact absurd hcontra (by simpa using hne)
    · intro c hc
      have hall := List.all_takeWhile (p := fun c => !(c = '/')) (l := rest)
      rw [List.all_eq_true] at hall
      have := hall c hc
      simpa using this
    · rcases dropWhile_shape (fun c => !(c = '/')) rest with hnil | ⟨c, t, hct, hc⟩
      · exact Or.inl hnil
      · refine Or.inr ⟨t, ?_⟩
        have hcs : c = '/' := by simpa using hc
        rw [hct, hcs]

/-- Structure of a successfully parsed URL. -/
theorem parseAnyHttpUrl_facts {cs : List Char} {u : ParsedHttpUrl}
    (h : parseAnyHttpUrl cs = some u) :
    (u.scheme = schemeHttps ∨ u.scheme = schemeHttp)
    ∧ u.host ≠ []
    ∧ (∀ c ∈ u.host, ¬ c = '/')
    ∧ (u.path = [] ∨ ∃ t, u.path = '/' :: t) := by
  unfold parseAnyHttpUrl at h
  cases h1 : dropLit (schemeHttps ++ schemeSep) cs with
  | some rest =>
      rw [h1] at h
      obtain ⟨hsch, hrest⟩ := And.intro (parseHostPath_facts h).1 (parseHostPath_facts h).2
      exact ⟨Or.inl hsch, hrest⟩
  | none =>
      rw [h1] at h
      cases h2 : dropLit (schemeHttp ++ schemeSep) cs with
      | some rest =>
          rw [h2] at h
          obtain ⟨hsch, hrest⟩ := And.intro (parseHostPath_facts h).1 (parseHostPath_facts h).2
          exact ⟨Or.inr hsch, hrest⟩
      | none =>
          rw [h2] at h
          exact absurd h (by simp)

/-- Parsing a well-formed rendered URL recovers its components. -/
theorem parse_of_wellformed (sch host path2 : List Char)
    (hs : sch = schemeHttps ∨ sch = schemeHttp)
    (hh : host ≠ []) (hhc : ∀ c ∈ host, ¬ c = '/')
    (hp : path2 = [] ∨ ∃ t, path2 = '/' :: t) :
    parseAnyHttpUrl (sch ++ schemeSep ++ host ++ path2) = some ⟨sch, host, path2⟩ := by
  have hall : ∀ c ∈ host, (fun c => !(c = '/')) c = true := by
    intro c hc
    simpa using hhc c hc
  have hrest : path2 = [] ∨ ∃ c t, path2 = c :: t ∧ (fun c => !(c = '/')) c = false := by
    rcases hp with hnil | ⟨t, ht⟩
    · exact Or.inl hnil
    · exact Or.inr ⟨'/', t, ht, by simp⟩
  have hsplit := takeWhile_append_all hall hrest
  have hHP : parseHostPath sch (host ++ path2) = some ⟨sch, host, path2⟩ := by
    unfold parseHostPath
    rw [hsplit.1, hsplit.2]
    cases host with
    | nil => exact absurd rfl hh
    | cons a t => rfl
  rcases hs with hcase | hcase
  · subst hcase
    have hassoc : schemeHttps ++ schemeSep ++ host ++ path2
        = (schemeHttps ++ schemeSep) ++ (host ++ path2) := by
      simp [List.append_assoc]
    rw [hassoc]
    unfold parseAnyHttpUrl
    rw [dropLit_append]
    exact hHP
  · subst hcase
    have hnone : dropLit (schemeHttps ++ schemeSep)
        (schemeHttp ++ schemeSep ++ host ++ path2) = none := by
      simp [schemeHttps, schemeHttp, schemeSep, dropLit]
    have hassoc : schemeHttp ++ schemeSep ++ host ++ path2
        = (schemeHttp ++ schemeSep) ++ (host ++ path2) := by
      simp [List.append_assoc]
    unfold parseAnyHttpUrl
    rw [hnone, hassoc, dropLit_append]
    exact hHP

/-- The character list of a constructed string. -/
theorem string_data_mk (cs : List Char) : (String.mk cs).data = cs := rfl

/-- Assigning a URL in normal form (well-formed components, slash-initial
slash-final path) to `base_url` stores it unchanged. -/
theorem set_base_url_of_normal (sch host path2 : List Char)
    (hs : sch = schemeHttps ∨ sch = schemeHttp)
    (hh : host ≠ []) (hhc : ∀ c ∈ host, ¬ c = '/')
    (hp : ∃ t, path2 = '/' :: t)
    (hlast : path2.getLast? = some '/') :
    set_base_url (some (String.mk (sch ++ schemeSep ++ host ++ path2)))
      = .ok (some (String.mk (sch ++ schemeSep ++ host ++ path2))) := by
  have hparse := parse_of_wellformed sch host path2 hs hh hhc
    (Or.inr hp)
  obtain ⟨t, ht⟩ := hp
  have hrender : renderAnyHttpUrl ⟨sch, host, path2⟩ = sch ++ schemeSep ++ host ++ path2 := by
    unfold renderAnyHttpUrl
    rw [ht]
    rfl
  have hlastall : (sch ++ schemeSep ++ host ++ path2).getLast? = some '/' := by
    rw [List.getLast?_append, hlast]
    rfl
  simp only [set_base_url, anyUrlString, string_data_mk, hparse, Option.map_some', hrender,
             base_url_ends_with_slash, hlastall, if_true]

/-- C7: setting `base_url` to a valid absolute http/https URL stores it
normalized with a trailing slash (in particular `https://example.com/api`
is stored as `https://example.com/api/`), every stored value ends with a
slash, and re-assigning a stored value keeps it unchanged (idempotent
round-trip). -/
theorem base_url_round_trip :
    set_base_url (some "https://example.com/api") = .ok (some "https://example.com/api/")
    ∧ ∀ (s u : String), set_base_url (some s) = .ok (some u) →
        u.data.getLast? = some '/' ∧ set_base_url (some u) = .ok (some u) := by
  constructor
  · decide
  · intro s u h
    cases hpz : anyUrlString s with
    | none => simp [set_base_url, hpz] at h
    | some x =>
      simp only [set_base_url, hpz, Except.ok.injEq, Option.some.injEq] at h
      subst h
      obtain ⟨p, hp, hx⟩ : ∃ p, parseAnyHttpUrl s.data = some p
          ∧ String.mk (renderAnyHttpUrl p) = x := by
        unfold anyUrlString at hpz
        cases hp2 : parseAnyHttpUrl s.data with
        | none =>
            rw [hp2] at hpz
            exact absurd hpz (by simp)
        | some p =>
            rw [hp2, Option.map_some'] at hpz
            exact ⟨p, rfl, by simpa using hpz⟩
      subst hx
      obtain ⟨hsch, hh, hhc, hpathshape⟩ := parseAnyHttpUrl_facts hp
      rcases hpathshape with hnil | ⟨t, ht⟩
      · -- empty path: the renderer emits the root path `/`
        have hrender : renderAnyHttpUrl p = p.scheme ++ schemeSep ++ p.host ++ ['/'] := by
          unfold renderAnyHttpUrl
          rw [hnil]
          rfl
        have hlast2 : (p.scheme ++ schemeSep ++ p.host ++ ['/']).getLast? = some '/' :=
          List.getLast?_concat _
        have hfix : base_url_ends_with_slash (String.mk (renderAnyHttpUrl p))
            = String.mk (p.scheme ++ schemeSep ++ p.host ++ ['/']) := by
          simp only [base_url_ends_with_slash, hrender, string_data_mk, hlast2, if_true]
        rw [hfix]
        refine ⟨by rw [string_data_mk]; exact hlast2, ?_⟩
        exact set_base_url_of_normal _ _ ['/'] hsch hh hhc ⟨[], rfl⟩ rfl
      · -- non-empty path, starting with `/`
        have hrender : renderAnyHttpUrl p = p.scheme ++ schemeSep ++ p.host ++ ('/' :: t) := by
          unfold renderAnyHttpUrl
          rw [ht]
          rfl
        by_cases hlastp : ('/' :: t : List Char).getLast? = some '/'
        · -- the path already ends with a slash: stored unchanged
          have hlast2 : (p.scheme ++ schemeSep ++ p.host ++ ('/' :: t)).getLast? = some '/' := by
            rw [List.getLast?_append, hlastp]
            rfl
          have hfix : base_url_ends_with_slash (String.mk (renderAnyHttpUrl p))
              = String.mk (p.scheme ++ schemeSep ++ p.host ++ ('/' :: t)) := by
            simp only [base_url_ends_with_slash, hrender, string_data_mk, hlast2, if_true]
          rw [hfix]
          refine ⟨by rw [string_data_mk]; exact hlast2, ?_⟩
          exact set_base_url_of_normal _ _ ('/' :: t) hsch hh hhc ⟨t, rfl⟩ hlastp
        · -- the validator appends a slash
          have hlast2 : ¬ (p.scheme ++ schemeSep ++ p.host ++ ('/' :: t)).getLast? = some '/' := by
            rw [List.getLast?_append, List.getLast?_cons]
            rw [List.getLast?_cons] at hlastp
            simpa using hlastp
          have hfix : base_url_ends_with_slash (String.mk (renderAnyHttpUrl p))
              = String.mk ((p.scheme ++ schemeSep ++ p.host ++ ('/' :: t)) ++ ['/']) := by
            simp only [base_url_ends_with_slash, hrender, string_data_mk, hlast2, if_false]
            rfl
          rw [hfix]
          have hshape : (p.scheme ++ schemeSep ++ p.host ++ ('/' :: t)) ++ ['/']
              = p.scheme ++ schemeSep ++ p.host ++ ('/' :: (t ++ ['/'])) := by
            simp [List.append_assoc]
          have hlast3 : ('/' :: (t ++ ['/']) : List Char).getLast? = some '/' := by
            rw [show ('/' :: (t ++ ['/']) : List Char) = ('/' :: t) ++ ['/'] from by simp]
            exact List.getLast?_concat _
          refine ⟨?_, ?_⟩
          · rw [string_data_mk]
            exact List.getLast?_concat _
          · rw [hshape]
            exact set_base_url_of_normal _ _ ('/' :: (t ++ ['/'])) hsch hh hhc
              ⟨t ++ ['/'], rfl⟩ hlast3

/-- Witness for C7: re-assigning the stored `https://example.com/api/`
keeps it unchanged and it ends with a slash. -/
theorem base_url_round_trip_witness :
    ("https://example.com/api/").data.getLast? = some '/'
    ∧ set_base_url (some "https://example.com/api/") = .ok (some "https://example.com/api/") :=
  base_url_round_trip.2 "https://example.com/api" "https://example.com/api/"
    base_url_round_trip.1

end Restsession
